import Mathlib

/-!
Verification of the screening-and-treatment cascade builder of
`run_sim.py` (hpvsim_nigeria).

The only component with logic of its own is `make_st`, which builds an
ordered list of five intervention step descriptors (screening, triage,
ablation, excision, radiation).  We embed the simulation state that the
eligibility closures read (per-person screening dates, the current time
and time step, and the per-label outcome buckets produced by the engine),
the five eligibility functions, the coverage-to-probability formula, and
`make_st` itself.  Floating point numbers carried by the probability
formula are modelled as real numbers; times and dates are modelled as
rationals (a screening date of NaN, meaning never screened, is modelled
as `none`).
-/

/-- The per-person state read by the screening eligibility closure:
`sim.people.date_screened` is an array with one (possibly NaN) entry per
person.  `none` models NaN (never screened). -/
structure People where
  n_agents : Nat
  date_screened : Nat → Option ℚ

/-- The slice of engine state the eligibility closures read: the people,
the current time step `sim.t`, the step size `sim['dt']`, and for each
intervention label the named outcome buckets
(`sim.get_intervention(label).outcomes[bucket]`, an index array,
modelled as a list of person indices). -/
structure Sim where
  people : People
  t : ℚ
  dt : ℚ
  outcomes : String → String → List Nat

/-- An eligibility argument as passed to the hpvsim intervention
constructors: either a per-person boolean mask over the state (as the
screening step passes) or a function returning a list of person indices
(as the downstream steps pass). -/
inductive Elig where
  | mask (f : Sim → Nat → Bool)
  | idx (f : Sim → List Nat)

/-- One intervention step descriptor, holding the keyword arguments the
script passes to `hpv.routine_screening` / `hpv.routine_triage` /
`hpv.treat_num`.  `kind` records which constructor was called;
`annual_prob` is `none` when the script does not pass the keyword. -/
structure Intervention where
  kind : String
  prob : ℝ
  annual_prob : Option Bool
  product : String
  start_year : Option ℤ
  age_range : Option (ℚ × ℚ)
  eligibility : Elig
  label : String

/-- `age_range = [30, 50]`, fixed inside `make_st` (not a parameter). -/
def age_range : ℚ × ℚ := (30, 50)

/-- `len_age_range = (age_range[1]-age_range[0])/2`. -/
def len_age_range : ℚ := (age_range.2 - age_range.1) / 2

/-- `model_annual_screen_prob = 1 - (1 - screen_coverage)**(1/len_age_range)`. -/
noncomputable def model_annual_screen_prob (screen_coverage : ℝ) : ℝ :=
  1 - (1 - screen_coverage) ^ ((1 : ℝ) / (len_age_range : ℝ))

/-- `screen_eligible = lambda sim: np.isnan(sim.people.date_screened) |
(sim.t > (sim.people.date_screened + 5 / sim['dt']))`, per person.
NaN propagates through the addition and any comparison with NaN is
false, which the `match` on the optional date reproduces. -/
def screen_eligible (sim : Sim) (i : Nat) : Bool :=
  (sim.people.date_screened i).isNone ||
    (match (sim.people.date_screened i).map (fun d => d + 5 / sim.dt) with
     | none => false
     | some cutoff => decide (sim.t > cutoff))

/-- `screen_positive = lambda sim: sim.get_intervention('screening').outcomes['positive']`. -/
def screen_positive (sim : Sim) : List Nat :=
  sim.outcomes ("screening") ("positive")

/-- `ablation_eligible = lambda sim: sim.get_intervention('tx assigner').outcomes['ablation']`. -/
def ablation_eligible (sim : Sim) : List Nat :=
  sim.outcomes ("tx assigner") ("ablation")

/-- `excision_eligible = lambda sim: list(set(... .outcomes['excision'].tolist() +
... .outcomes['unsuccessful'].tolist()))`: concatenate the two index
lists and remove duplicates (Python's `set` fixes no order; we model the
resulting list with `List.dedup`, which has the same membership). -/
def excision_eligible (sim : Sim) : List Nat :=
  (sim.outcomes ("tx assigner") ("excision") ++
    sim.outcomes ("ablation") ("unsuccessful")).dedup

/-- `radiation_eligible = lambda sim: sim.get_intervention('tx assigner').outcomes['radiation']`. -/
def radiation_eligible (sim : Sim) : List Nat :=
  sim.outcomes ("tx assigner") ("radiation")

/-- `make_st(product, screen_coverage, treat_coverage, start_year)`:
builds the five step descriptors exactly as the script does and returns
them in order.  The radiation step's product in the script is the object
`hpv.radiation()`; we record it by name. -/
noncomputable def make_st (product : String) (screen_coverage : ℝ)
    (treat_coverage : ℝ) (start_year : ℤ) : List Intervention :=
  let screening : Intervention :=
    { kind := "routine_screening"
      prob := model_annual_screen_prob screen_coverage
      annual_prob := none
      product := product
      start_year := some start_year
      age_range := some age_range
      eligibility := Elig.mask screen_eligible
      label := "screening" }
  let assign_treatment : Intervention :=
    { kind := "routine_triage"
      prob := 1.0
      annual_prob := some false
      product := "tx_assigner"
      start_year := some start_year
      age_range := none
      eligibility := Elig.idx screen_positive
      label := "tx assigner" }
  let ablation : Intervention :=
    { kind := "treat_num"
      prob := treat_coverage
      annual_prob := some false
      product := "ablation"
      start_year := none
      age_range := none
      eligibility := Elig.idx ablation_eligible
      label := "ablation" }
  let excision : Intervention :=
    { kind := "treat_num"
      prob := treat_coverage
      annual_prob := some false
      product := "excision"
      start_year := none
      age_range := none
      eligibility := Elig.idx excision_eligible
      label := "excision" }
  let radiation : Intervention :=
    { kind := "treat_num"
      prob := treat_coverage / 4
      annual_prob := some false
      product := "radiation"
      start_year := none
      age_range := none
      eligibility := Elig.idx radiation_eligible
      label := "radiation" }
  [screening, assign_treatment, ablation, excision, radiation]

/-- Fallback descriptor used only as the default of `List.getD`. -/
noncomputable def noIntv : Intervention :=
  { kind := ""
    prob := 0
    annual_prob := none
    product := ""
    start_year := none
    age_range := none
    eligibility := Elig.idx (fun _ => [])
    label := "" }

/-- A concrete engine state (nobody screened yet, empty outcome buckets),
used to exercise the dependency theorem. -/
def simA : Sim :=
  { people := { n_agents := 2, date_screened := fun _ => none }
    t := 10
    dt := 1 / 4
    outcomes := fun _ _ => [] }

/-- A state agreeing with `simA` on people, time and step size but with
different outcome buckets everywhere. -/
def simB : Sim :=
  { people := { n_agents := 2, date_screened := fun _ => none }
    t := 10
    dt := 1 / 4
    outcomes := fun _ _ => [0, 1] }

/-- C1: for every screen_coverage in [0, 1], the probability carried by
the screening step that make_st builds equals
1 - (1 - screen_coverage)^(1/k) where k = len_age_range = 10 is half the
width of the fixed [30, 50] age window. -/
theorem screening_prob_formula (product : String) (c tc : ℝ) (y : ℤ)
    (h0 : 0 ≤ c) (h1 : c ≤ 1) :
    ((make_st product c tc y).getD 0 noIntv).prob = 1 - (1 - c) ^ ((1 : ℝ) / 10) ∧
    len_age_range = 10 := by
  have hk : len_age_range = 10 := by norm_num [len_age_range, age_range]
  refine ⟨?_, hk⟩
  have h : ((make_st product c tc y).getD 0 noIntv).prob = model_annual_screen_prob c := rfl
  rw [h]
  unfold model_annual_screen_prob
  rw [hk]
  norm_num

/-- Witness for C1 at screen_coverage = 0.15. -/
theorem screening_prob_formula_witness :
    (0 : ℝ) ≤ 0.15 ∧ (0.15 : ℝ) ≤ 1 ∧
    ((make_st ("hpv") (0.15) (0.7) 2020).getD 0 noIntv).prob =
      1 - (1 - (0.15 : ℝ)) ^ ((1 : ℝ) / 10) :=
  ⟨by norm_num, by norm_num,
    (screening_prob_formula ("hpv") 0.15 0.7 2020 (by norm_num) (by norm_num)).1⟩

/-- C3: the excision step's eligibility function is excision_eligible,
whose result is duplicate-free and is, as a set, the union of the
tx assigner's excision bucket and the ablation step's unsuccessful
bucket, for any state. -/
theorem excision_eligible_union (p : String) (sc tc : ℝ) (y : ℤ) (s : Sim) :
    ((make_st p sc tc y).getD 3 noIntv).eligibility = Elig.idx excision_eligible ∧
    (excision_eligible s).Nodup ∧
    (excision_eligible s).toFinset =
      (s.outcomes ("tx assigner") ("excision")).toFinset ∪
        (s.outcomes ("ablation") ("unsuccessful")).toFinset := by
  refine ⟨rfl, List.nodup_dedup _, ?_⟩
  ext x
  simp [excision_eligible]

/-- C4: a person is screen-eligible iff their screening date is NaN
(never screened) or the current time exceeds that date plus 5 years in
time-step units. -/
theorem screen_eligible_iff (s : Sim) (i : Nat) :
    screen_eligible s i = true ↔
      (s.people.date_screened i = none ∨
        ∃ d, s.people.date_screened i = some d ∧ s.t > d + 5 / s.dt) := by
  unfold screen_eligible
  cases h : s.people.date_screened i with
  | none => simp
  | some d => simp

/-- C5: the radiation step's probability is treat_coverage / 4 while the
ablation and excision steps each receive treat_coverage. -/
theorem treatment_step_probs (p : String) (sc tc : ℝ) (y : ℤ) :
    ((make_st p sc tc y).getD 4 noIntv).prob = tc / 4 ∧
    ((make_st p sc tc y).getD 2 noIntv).prob = tc ∧
    ((make_st p sc tc y).getD 3 noIntv).prob = tc :=
  ⟨rfl, rfl, rfl⟩

/-- C6: for every input, make_st returns exactly five step descriptors,
in the order screening, tx assigner, ablation, excision, radiation,
built by routine_screening, routine_triage and three treat_num calls. -/
theorem make_st_five_steps_in_order (p : String) (sc tc : ℝ) (y : ℤ) :
    (make_st p sc tc y).length = 5 ∧
    (make_st p sc tc y).map Intervention.label =
      ["screening", "tx assigner", "ablation", "excision", "radiation"] ∧
    (make_st p sc tc y).map Intervention.kind =
      ["routine_screening", "routine_triage", "treat_num", "treat_num", "treat_num"] :=
  ⟨rfl, rfl, rfl⟩

/-- C7: each step's eligibility in make_st's output is the named
function listed here in construction order, and each of those functions
reads only outcome buckets of strictly earlier steps: screening reads no
outcomes at all (it depends only on people, t and dt), the tx assigner
reads only the screening bucket, ablation only the tx assigner bucket,
excision only the tx assigner and ablation buckets, and radiation only
the tx assigner bucket. -/
theorem cascade_acyclic_dependencies (p : String) (sc tc : ℝ) (y : ℤ) :
    (make_st p sc tc y).map Intervention.eligibility =
      [Elig.mask screen_eligible, Elig.idx screen_positive, Elig.idx ablation_eligible,
        Elig.idx excision_eligible, Elig.idx radiation_eligible] ∧
    (∀ s1 s2 : Sim, s1.people = s2.people → s1.t = s2.t → s1.dt = s2.dt →
      screen_eligible s1 = screen_eligible s2) ∧
    (∀ s1 s2 : Sim, s1.outcomes ("screening") = s2.outcomes ("screening") →
      screen_positive s1 = screen_positive s2) ∧
    (∀ s1 s2 : Sim, s1.outcomes ("tx assigner") = s2.outcomes ("tx assigner") →
      ablation_eligible s1 = ablation_eligible s2) ∧
    (∀ s1 s2 : Sim, s1.outcomes ("tx assigner") = s2.outcomes ("tx assigner") →
      s1.outcomes ("ablation") = s2.outcomes ("ablation") →
      excision_eligible s1 = excision_eligible s2) ∧
    (∀ s1 s2 : Sim, s1.outcomes ("tx assigner") = s2.outcomes ("tx assigner") →
      radiation_eligible s1 = radiation_eligible s2) := by
  refine ⟨rfl, ?_, ?_, ?_, ?_, ?_⟩
  · intro s1 s2 hp ht hd
    funext i
    unfold screen_eligible
    rw [hp, ht, hd]
  · intro s1 s2 h
    unfold screen_positive
    rw [h]
  · intro s1 s2 h
    unfold ablation_eligible
    rw [h]
  · intro s1 s2 h1 h2
    unfold excision_eligible
    rw [h1, h2]
  · intro s1 s2 h
    unfold radiation_eligible
    rw [h]

/-- Witness for C7: two concrete states with equal people, t and dt but
different outcome buckets give the same screening eligibility. -/
theorem cascade_acyclic_dependencies_witness :
    screen_eligible simA = screen_eligible simB :=
  (cascade_acyclic_dependencies ("hpv") 0.15 0.7 2020).2.1 simA simB rfl rfl rfl

/-- C8: for the fixed age window, the screening probability make_st
derives is strictly increasing in screen_coverage on [0, 1]. -/
theorem screening_prob_strict_mono (p : String) (tc : ℝ) (y : ℤ) (a b : ℝ)
    (h0 : 0 ≤ a) (hab : a < b) (h1 : b ≤ 1) :
    ((make_st p a tc y).getD 0 noIntv).prob < ((make_st p b tc y).getD 0 noIntv).prob := by
  have ea : ((make_st p a tc y).getD 0 noIntv).prob = model_annual_screen_prob a := rfl
  have eb : ((make_st p b tc y).getD 0 noIntv).prob = model_annual_screen_prob b := rfl
  rw [ea, eb]
  unfold model_annual_screen_prob
  have hk : ((len_age_range : ℚ) : ℝ) = 10 := by norm_num [len_age_range, age_range]
  rw [hk]
  have h : (1 - b) ^ ((1 : ℝ) / 10) < (1 - a) ^ ((1 : ℝ) / 10) :=
    Real.rpow_lt_rpow (by linarith) (by linarith) (by norm_num)
  linarith

/-- Witness for C8 at a = 0, b = 1. -/
theorem screening_prob_strict_mono_witness :
    ((make_st ("hpv") 0 0.7 2020).getD 0 noIntv).prob <
      ((make_st ("hpv") 1 0.7 2020).getD 0 noIntv).prob :=
  screening_prob_strict_mono ("hpv") 0.7 2020 0 1 (by norm_num) (by norm_num) (by norm_num)

/-- Counterexample for C2: at treat_coverage = 2 (outside [0, 1])
make_st does not reject the input: it still constructs all five steps,
and the ablation step it returns carries probability 2, greater than 1. -/
theorem make_st_no_validation_cex :
    ¬ ((2 : ℝ) ≤ 1) ∧
    (make_st ("hpv") (0.15) 2 2020).length = 5 ∧
    ((make_st ("hpv") (0.15) 2 2020).getD 2 noIntv).prob = 2 ∧
    (1 : ℝ) < ((make_st ("hpv") (0.15) 2 2020).getD 2 noIntv).prob := by
  refine ⟨by norm_num, rfl, rfl, ?_⟩
  have h : ((make_st ("hpv") (0.15) 2 2020).getD 2 noIntv).prob = 2 := rfl
  rw [h]
  norm_num

/-- C2 amended: make_st performs no validation of coverage values: even
when treat_coverage is outside [0, 1] it constructs and returns all five
steps, with the out-of-range value passed through unchanged as the
ablation and excision step probabilities. -/
theorem make_st_no_validation (p : String) (sc tc : ℝ) (y : ℤ)
    (h : tc < 0 ∨ 1 < tc) :
    (make_st p sc tc y).length = 5 ∧
    ((make_st p sc tc y).getD 2 noIntv).prob = tc ∧
    ((make_st p sc tc y).getD 3 noIntv).prob = tc :=
  ⟨rfl, rfl, rfl⟩

/-- Witness for the amended C2 at treat_coverage = 2. -/
theorem make_st_no_validation_witness :
    (make_st ("hpv") (0.15) 2 2020).length = 5 ∧
    ((make_st ("hpv") (0.15) 2 2020).getD 2 noIntv).prob = 2 ∧
    ((make_st ("hpv") (0.15) 2 2020).getD 3 noIntv).prob = 2 :=
  make_st_no_validation ("hpv") 0.15 2 2020 (Or.inr (by norm_num))

/-- C10: the age window is fixed inside make_st, not a parameter: for
every input the screening step carries age_range = (30, 50), so the
exponent divisor len_age_range is always 10 and never zero. -/
theorem age_window_fixed (p : String) (sc tc : ℝ) (y : ℤ) :
    ((make_st p sc tc y).getD 0 noIntv).age_range = some age_range ∧
    age_range = (30, 50) ∧ len_age_range = 10 ∧ len_age_range ≠ 0 := by
  refine ⟨rfl, rfl, ?_, ?_⟩ <;> norm_num [len_age_range, age_range]
